import Mathlib

/-!
Shallow embedding of the reservation core of the accommodation-management
backend (src/backend/reservations and src/backend/financials).

Timestamps are modelled as minutes since an epoch (`Int`); the `.date()`
projection of a datetime is floor-division by 1440.  Money (Django
`DecimalField(10,2)`) is modelled as an integer number of cents.  Purely
informational fields (guest counts, price_breakdown, payment_history,
human-readable descriptions, created/updated timestamps) are omitted: no
piece of control flow below reads them, except `notes`, kept to model
"unrelated field" edits.
-/

namespace AccomMgmt

/-- Reservation.STATUS_CHOICES from src/backend/reservations/models.py. -/
inductive RStatus where
  | PENDING
  | CONFIRMED
  | CHECKED_IN
  | CHECKED_OUT
  | CANCELLED
  deriving DecidableEq, Repr

/-- AccommodationUnit.STATUS_CHOICES from src/backend/accommodations/models.py. -/
inductive UStatus where
  | CLEAN
  | DIRTY
  | INSPECTING
  deriving DecidableEq, Repr

/-- Transaction.TRANSACTION_TYPE_CHOICES from src/backend/financials/models.py. -/
inductive TType where
  | INCOME
  | EXPENSE
  deriving DecidableEq, Repr

/-- Transaction.CATEGORY_CHOICES from src/backend/financials/models.py. -/
inductive TCategory where
  | LODGING
  | MAINTENANCE
  | UTILITIES
  | SUPPLIES
  | SALARY
  | OTHER
  deriving DecidableEq, Repr

/-- Transaction.PAYMENT_METHOD_CHOICES from src/backend/financials/models.py. -/
inductive PMethod where
  | PIX
  | CREDIT_CARD
  | DEBIT_CARD
  | CASH
  | BANK_TRANSFER
  deriving DecidableEq, Repr

/-- The fields of reservations.models.Reservation read by the core logic.
`check_in` and `check_out` are datetimes in minutes; `total_price` and
`amount_paid` are cents (total_price is nullable). -/
structure Reservation where
  pk : Nat
  accommodation_unit : Nat
  client : Nat
  check_in : Int
  check_out : Int
  total_price : Option Int
  amount_paid : Int
  status : RStatus
  notes : String
  deriving DecidableEq, Repr

/-- The fields of financials.models.Transaction read by the core logic.
`reservation` is a nullable foreign key (pk); `due_date` and `paid_date`
are dates (days). The free-text description is omitted. -/
structure Transaction where
  reservation : Option Nat
  amount : Int
  transaction_type : TType
  category : TCategory
  payment_method : PMethod
  due_date : Int
  paid_date : Option Int
  deriving DecidableEq, Repr

/-- The fields of accommodations.models.AccommodationUnit read by the
reservation core (only identity and cleanliness status). -/
structure AccommodationUnit where
  id : Nat
  status : UStatus
  deriving DecidableEq, Repr

/-- The persisted state touched by a reservation save, plus the ambient
current date (`date.today()` as used by the post_save signal). -/
structure DB where
  reservations : List Reservation
  transactions : List Transaction
  units : List AccommodationUnit
  today : Int
  deriving DecidableEq, Repr

/-- `.date()` of a datetime measured in minutes: the day index, floor division. -/
def dateOf (t : Int) : Int := Int.fdiv t 1440

/-- The two field-scoped ValidationError keys raised by Reservation.clean. -/
inductive FieldErr where
  | check_out_field
  | check_in_field
  deriving DecidableEq, Repr

/-- The filter of the overlap query in Reservation.clean: same unit, not
CANCELLED, not the record itself, and
`check_in__lt=self.check_out, check_out__gt=self.check_in`. -/
def conflictsWith (r o : Reservation) : Prop :=
  o.accommodation_unit = r.accommodation_unit ∧
  o.status ≠ RStatus.CANCELLED ∧
  o.pk ≠ r.pk ∧
  o.check_in < r.check_out ∧
  o.check_out > r.check_in

instance (r o : Reservation) : Decidable (conflictsWith r o) := by
  unfold conflictsWith
  infer_instance

/-- Reservation.clean (src/backend/reservations/models.py): rejects
`check_out <= check_in` on the check_out field, then rejects any overlap
with a non-cancelled reservation on the same unit (self excluded) on the
check_in field. -/
def Reservation.clean (db : List Reservation) (r : Reservation) : Except FieldErr Unit :=
  if r.check_out ≤ r.check_in then
    Except.error FieldErr.check_out_field
  else if db.any (fun o => decide (conflictsWith r o)) then
    Except.error FieldErr.check_in_field
  else
    Except.ok ()

/-- Python truthiness of the nullable Decimal `total_price`:
None and 0 are falsy (`if instance.total_price:` in the post_save signal). -/
def truthyPrice : Option Int → Bool
  | none => false
  | some p => decide (p ≠ 0)

/-- Reservation.is_fully_paid (property): False when total_price is null
or zero, else `amount_paid >= total_price`. -/
def Reservation.is_fully_paid (r : Reservation) : Bool :=
  match r.total_price with
  | none => false
  | some p => if p = 0 then false else decide (p ≤ r.amount_paid)

/-- The pre_save signal handler handle_reservation_status_change
(src/backend/reservations/signals.py), given the previously persisted row
`old` (it is only invoked when `instance.pk` is set and the old row is
found).  On a transition into CANCELLED it deletes the unpaid transactions
linked to the reservation; when amount_paid goes from 0 to positive and
the incoming status is PENDING it rewrites the status to CONFIRMED. -/
def handle_reservation_status_change (old inst : Reservation)
    (txs : List Transaction) : Reservation × List Transaction :=
  ((if old.amount_paid = 0 ∧ 0 < inst.amount_paid ∧ inst.status = RStatus.PENDING then
      { inst with status := RStatus.CONFIRMED }
    else inst),
   (if old.status ≠ RStatus.CANCELLED ∧ inst.status = RStatus.CANCELLED then
      txs.filter (fun t => !decide (t.reservation = some inst.pk ∧ t.paid_date = none))
    else txs))

/-- The queryset filter used to look up the reservation's INCOME
transaction in the post_save signal. -/
def txPred (pk : Nat) (t : Transaction) : Bool :=
  decide (t.reservation = some pk ∧ t.transaction_type = TType.INCOME)

/-- Replace the first list element satisfying `p` by its image under `f`:
models fetching the `.first()` matching row, mutating it and saving it. -/
def replaceFirst (p : Transaction → Bool) (f : Transaction → Transaction) :
    List Transaction → List Transaction
  | [] => []
  | t :: ts => if p t then f t :: ts else t :: replaceFirst p f ts

/-- The INCOME transaction built by the post_save signal (description
string omitted): amount = total_price, category lodging, default payment
method PIX, due_date = check_in date, paid_date = today iff the
reservation is already fully paid. -/
def newIncomeTx (inst : Reservation) (today : Int) : Transaction :=
  { reservation := some inst.pk
    amount := inst.total_price.getD 0
    transaction_type := TType.INCOME
    category := TCategory.LODGING
    payment_method := PMethod.PIX
    due_date := dateOf inst.check_in
    paid_date := if inst.is_fully_paid then some today else none }

/-- The post_save signal create_financial_transaction
(src/backend/reservations/signals.py): when the saved reservation has a
truthy total_price and is not CANCELLED, create the INCOME transaction if
none exists, otherwise toggle the existing one's paid_date to match
is_fully_paid. -/
def create_financial_transaction (inst : Reservation) (today : Int)
    (txs : List Transaction) : List Transaction :=
  if truthyPrice inst.total_price ∧ inst.status ≠ RStatus.CANCELLED then
    match txs.find? (txPred inst.pk) with
    | none => txs ++ [newIncomeTx inst today]
    | some t =>
      if inst.is_fully_paid ∧ t.paid_date = none then
        replaceFirst (txPred inst.pk) (fun u => { u with paid_date := some today }) txs
      else if ¬ inst.is_fully_paid = true ∧ t.paid_date ≠ none then
        replaceFirst (txPred inst.pk) (fun u => { u with paid_date := none }) txs
      else txs
  else txs

/-- The effect of the pre_save phase of `super().save()`: on a create
(`instance.pk` is None in Django, modelled by `isNew`) the handler is
skipped; on an update the previously persisted row is fetched by pk
(DoesNotExist is swallowed) and handle_reservation_status_change runs. -/
def savedInstance (db : DB) (inst : Reservation) (isNew : Bool) :
    Reservation × List Transaction :=
  if isNew then (inst, db.transactions)
  else
    match db.reservations.find? (fun o => decide (o.pk = inst.pk)) with
    | none => (inst, db.transactions)
    | some old => handle_reservation_status_change old inst db.transactions

/-- The state produced by a save whose full_clean succeeded:
Reservation.save marks the unit DIRTY when the (incoming) status is
CHECKED_OUT, then `super().save()` runs the pre_save handler, writes the
row (INSERT on create, UPDATE by pk otherwise) and runs the post_save
reconciliation. -/
def savePayload (db : DB) (inst : Reservation) (isNew : Bool) : DB :=
  { reservations :=
      if isNew then db.reservations ++ [(savedInstance db inst isNew).1]
      else db.reservations.map (fun o =>
        if o.pk = (savedInstance db inst isNew).1.pk then (savedInstance db inst isNew).1 else o)
    transactions :=
      create_financial_transaction (savedInstance db inst isNew).1 db.today
        (savedInstance db inst isNew).2
    units :=
      if inst.status = RStatus.CHECKED_OUT then
        db.units.map (fun u =>
          if u.id = inst.accommodation_unit then { u with status := UStatus.DIRTY } else u)
      else db.units
    today := db.today }

/-- Reservation.save (src/backend/reservations/models.py) as invoked by
the API write path: `full_clean` runs `clean` first and a ValidationError
aborts the save before any state is touched; otherwise the side effects
of savePayload are applied.  For an update, `inst` is the merged record
(the serializer sets the incoming attrs on the persisted instance before
validating), carrying the pk of the row being updated; for a create,
`isNew = true` and `inst.pk` is the pk the INSERT will assign. -/
def saveReservation (db : DB) (inst : Reservation) (isNew : Bool) : Except FieldErr DB :=
  match Reservation.clean db.reservations inst with
  | Except.error e => Except.error e
  | Except.ok _ => Except.ok (savePayload db inst isNew)

/-- A rejected save leaves the persisted state unchanged. -/
def applySave (db : DB) (inst : Reservation) (isNew : Bool) : DB :=
  match saveReservation db inst isNew with
  | Except.ok db' => db'
  | Except.error _ => db

/-- Run a sequence of create/update operations (each pair is the merged
record and the isNew flag). -/
def runSaves (db : DB) (ops : List (Reservation × Bool)) : DB :=
  ops.foldl (fun d op => applySave d op.1 op.2) db

/-- ReservationViewSet.check_availability's two query parameters: missing,
present but not ISO-8601-parsable, or parsed to a datetime. -/
inductive ParamV where
  | missing
  | unparsable
  | parsed (t : Int)
  deriving DecidableEq, Repr

/-- The two 400 responses of check_availability. -/
inductive AvailabilityError where
  | missing_params
  | invalid_format
  deriving DecidableEq, Repr

/-- ReservationViewSet.check_availability
(src/backend/reservations/views.py): requires both parameters, rejects
unparsable ones, then returns the units not referenced by any
non-cancelled reservation with `check_in__lt=check_out,
check_out__gt=check_in`. -/
def check_availability (db : DB) (ci co : ParamV) :
    Except AvailabilityError (List AccommodationUnit) :=
  match ci, co with
  | ParamV.missing, _ => Except.error AvailabilityError.missing_params
  | _, ParamV.missing => Except.error AvailabilityError.missing_params
  | ParamV.unparsable, _ => Except.error AvailabilityError.invalid_format
  | _, ParamV.unparsable => Except.error AvailabilityError.invalid_format
  | ParamV.parsed check_in, ParamV.parsed check_out =>
    let overlappingUnitIds :=
      ((db.reservations.filter (fun r =>
          decide (r.check_in < check_out) && decide (r.check_out > check_in))).filter
        (fun r => !decide (r.status = RStatus.CANCELLED))).map
        (fun r => r.accommodation_unit)
    Except.ok (db.units.filter (fun u => !overlappingUnitIds.contains u.id))

/-! ### Basic lemmas about the validator and the save pipeline -/

theorem clean_eq_ok_of {db : List Reservation} {r : Reservation}
    (h1 : r.check_in < r.check_out) (h2 : ∀ o ∈ db, ¬ conflictsWith r o) :
    Reservation.clean db r = Except.ok () := by
  unfold Reservation.clean
  rw [if_neg (not_le.mpr h1), if_neg]
  simp only [List.any_eq_true, decide_eq_true_eq, not_exists]
  intro o hpair
  exact h2 o hpair.1 hpair.2

theorem of_clean_eq_ok {db : List Reservation} {r : Reservation}
    (h : Reservation.clean db r = Except.ok ()) :
    r.check_in < r.check_out ∧ ∀ o ∈ db, ¬ conflictsWith r o := by
  unfold Reservation.clean at h
  by_cases h1 : r.check_out ≤ r.check_in
  · rw [if_pos h1] at h
    exact absurd h (by simp)
  · rw [if_neg h1] at h
    by_cases h2 : db.any (fun o => decide (conflictsWith r o)) = true
    · rw [if_pos h2] at h
      exact absurd h (by simp)
    · refine ⟨not_le.mp h1, ?_⟩
      intro o hmem hc
      exact h2 (List.any_eq_true.mpr ⟨o, hmem, decide_eq_true hc⟩)

theorem clean_eq_error_out {db : List Reservation} {r : Reservation}
    (h : r.check_out ≤ r.check_in) :
    Reservation.clean db r = Except.error FieldErr.check_out_field := by
  unfold Reservation.clean
  rw [if_pos h]

theorem clean_eq_error_in {db : List Reservation} {r : Reservation} {o : Reservation}
    (h1 : r.check_in < r.check_out) (hmem : o ∈ db) (hc : conflictsWith r o) :
    Reservation.clean db r = Except.error FieldErr.check_in_field := by
  unfold Reservation.clean
  rw [if_neg (not_le.mpr h1), if_pos]
  exact List.any_eq_true.mpr ⟨o, hmem, decide_eq_true hc⟩

theorem saveReservation_ok_iff {db : DB} {inst : Reservation} {b : Bool} {db' : DB} :
    saveReservation db inst b = Except.ok db' ↔
      Reservation.clean db.reservations inst = Except.ok () ∧ db' = savePayload db inst b := by
  unfold saveReservation
  cases h : Reservation.clean db.reservations inst with
  | error e => simp [h]
  | ok u =>
    cases u
    simp only [true_and]
    constructor
    · intro he
      cases he
      rfl
    · intro he
      rw [he]

theorem saveReservation_error_iff {db : DB} {inst : Reservation} {b : Bool} {e : FieldErr} :
    saveReservation db inst b = Except.error e ↔
      Reservation.clean db.reservations inst = Except.error e := by
  unfold saveReservation
  cases h : Reservation.clean db.reservations inst with
  | error e' =>
    constructor
    · intro he
      cases he
      rfl
    · intro he
      cases he
      rfl
  | ok u => simp

theorem applySave_of_error {db : DB} {inst : Reservation} {b : Bool} {e : FieldErr}
    (h : saveReservation db inst b = Except.error e) : applySave db inst b = db := by
  unfold applySave
  rw [h]

theorem applySave_of_ok {db : DB} {inst : Reservation} {b : Bool} {db' : DB}
    (h : saveReservation db inst b = Except.ok db') : applySave db inst b = db' := by
  unfold applySave
  rw [h]

/-- The pre_save handler either leaves the incoming record unchanged or
only rewrites its status from PENDING to CONFIRMED. -/
theorem handler_fst (old inst : Reservation) (txs : List Transaction) :
    (handle_reservation_status_change old inst txs).1 =
      if old.amount_paid = 0 ∧ 0 < inst.amount_paid ∧ inst.status = RStatus.PENDING then
        { inst with status := RStatus.CONFIRMED }
      else inst := rfl

theorem handler_snd (old inst : Reservation) (txs : List Transaction) :
    (handle_reservation_status_change old inst txs).2 =
      if old.status ≠ RStatus.CANCELLED ∧ inst.status = RStatus.CANCELLED then
        txs.filter (fun t => !decide (t.reservation = some inst.pk ∧ t.paid_date = none))
      else txs := rfl

theorem savedInstance_true (db : DB) (inst : Reservation) :
    savedInstance db inst true = (inst, db.transactions) := rfl

theorem savedInstance_false_none (db : DB) (inst : Reservation)
    (hf : db.reservations.find? (fun o => decide (o.pk = inst.pk)) = none) :
    savedInstance db inst false = (inst, db.transactions) := by
  unfold savedInstance
  rw [if_neg (by simp), hf]

theorem savedInstance_false_some (db : DB) (inst old : Reservation)
    (hf : db.reservations.find? (fun o => decide (o.pk = inst.pk)) = some old) :
    savedInstance db inst false = handle_reservation_status_change old inst db.transactions := by
  unfold savedInstance
  rw [if_neg (by simp), hf]

theorem savedInstance_fst_cases (db : DB) (inst : Reservation) (b : Bool) :
    (savedInstance db inst b).1 = inst ∨
      ((savedInstance db inst b).1 = { inst with status := RStatus.CONFIRMED } ∧
        inst.status = RStatus.PENDING) := by
  cases b with
  | true =>
    rw [savedInstance_true]
    exact Or.inl rfl
  | false =>
    cases hf : db.reservations.find? (fun o => decide (o.pk = inst.pk)) with
    | none =>
      rw [savedInstance_false_none db inst hf]
      exact Or.inl rfl
    | some old =>
      rw [savedInstance_false_some db inst old hf, handler_fst]
      by_cases hc : old.amount_paid = 0 ∧ 0 < inst.amount_paid ∧ inst.status = RStatus.PENDING
      · right
        rw [if_pos hc]
        exact ⟨rfl, hc.2.2⟩
      · left
        rw [if_neg hc]

theorem savedInstance_fst_pk (db : DB) (inst : Reservation) (b : Bool) :
    (savedInstance db inst b).1.pk = inst.pk := by
  rcases savedInstance_fst_cases db inst b with h | ⟨h, _⟩ <;> rw [h]

theorem savedInstance_fst_unit (db : DB) (inst : Reservation) (b : Bool) :
    (savedInstance db inst b).1.accommodation_unit = inst.accommodation_unit := by
  rcases savedInstance_fst_cases db inst b with h | ⟨h, _⟩ <;> rw [h]

theorem savedInstance_fst_check_in (db : DB) (inst : Reservation) (b : Bool) :
    (savedInstance db inst b).1.check_in = inst.check_in := by
  rcases savedInstance_fst_cases db inst b with h | ⟨h, _⟩ <;> rw [h]

theorem savedInstance_fst_check_out (db : DB) (inst : Reservation) (b : Bool) :
    (savedInstance db inst b).1.check_out = inst.check_out := by
  rcases savedInstance_fst_cases db inst b with h | ⟨h, _⟩ <;> rw [h]

theorem savedInstance_fst_total_price (db : DB) (inst : Reservation) (b : Bool) :
    (savedInstance db inst b).1.total_price = inst.total_price := by
  rcases savedInstance_fst_cases db inst b with h | ⟨h, _⟩ <;> rw [h]

theorem savedInstance_fst_amount_paid (db : DB) (inst : Reservation) (b : Bool) :
    (savedInstance db inst b).1.amount_paid = inst.amount_paid := by
  rcases savedInstance_fst_cases db inst b with h | ⟨h, _⟩ <;> rw [h]

theorem savedInstance_fst_is_fully_paid (db : DB) (inst : Reservation) (b : Bool) :
    (savedInstance db inst b).1.is_fully_paid = inst.is_fully_paid := by
  unfold Reservation.is_fully_paid
  rw [savedInstance_fst_total_price, savedInstance_fst_amount_paid]

theorem savedInstance_fst_cancelled_iff (db : DB) (inst : Reservation) (b : Bool) :
    (savedInstance db inst b).1.status = RStatus.CANCELLED ↔
      inst.status = RStatus.CANCELLED := by
  rcases savedInstance_fst_cases db inst b with h | ⟨h, hp⟩
  · rw [h]
  · rw [h]
    constructor
    · intro hcc
      exact absurd hcc (by simp)
    · intro hcc
      rw [hp] at hcc
      exact absurd hcc (by simp)

/-- When the incoming status is not CANCELLED the pre_save handler never
purges: the transaction list it passes on is the stored one. -/
theorem savedInstance_snd_of_not_cancelled (db : DB) (inst : Reservation) (b : Bool)
    (h : inst.status ≠ RStatus.CANCELLED) :
    (savedInstance db inst b).2 = db.transactions := by
  cases b with
  | true => rw [savedInstance_true]
  | false =>
    cases hf : db.reservations.find? (fun o => decide (o.pk = inst.pk)) with
    | none => rw [savedInstance_false_none db inst hf]
    | some old =>
      rw [savedInstance_false_some db inst old hf, handler_snd, if_neg]
      intro hc
      exact h hc.2

theorem savePayload_reservations (db : DB) (inst : Reservation) (b : Bool) :
    (savePayload db inst b).reservations =
      if b then db.reservations ++ [(savedInstance db inst b).1]
      else db.reservations.map (fun o =>
        if o.pk = (savedInstance db inst b).1.pk then (savedInstance db inst b).1 else o) := rfl

theorem savePayload_transactions (db : DB) (inst : Reservation) (b : Bool) :
    (savePayload db inst b).transactions =
      create_financial_transaction (savedInstance db inst b).1 db.today
        (savedInstance db inst b).2 := rfl

theorem savePayload_units (db : DB) (inst : Reservation) (b : Bool) :
    (savePayload db inst b).units =
      if inst.status = RStatus.CHECKED_OUT then
        db.units.map (fun u =>
          if u.id = inst.accommodation_unit then { u with status := UStatus.DIRTY } else u)
      else db.units := rfl

/-- Any row of the post-save reservation table is either the saved
instance or a pre-existing row. -/
theorem mem_savePayload_reservations {db : DB} {inst : Reservation} {b : Bool}
    {r : Reservation} (hr : r ∈ (savePayload db inst b).reservations) :
    r = (savedInstance db inst b).1 ∨ r ∈ db.reservations := by
  rw [savePayload_reservations] at hr
  cases b with
  | true =>
    rw [if_pos rfl, List.mem_append] at hr
    rcases hr with h | h
    · exact Or.inr h
    · exact Or.inl (List.mem_singleton.mp h)
  | false =>
    rw [if_neg (by simp)] at hr
    obtain ⟨o, ho, hfo⟩ := List.mem_map.mp hr
    by_cases hpk : o.pk = (savedInstance db inst false).1.pk
    · rw [if_pos hpk] at hfo
      exact Or.inl hfo.symm
    · rw [if_neg hpk] at hfo
      exact Or.inr (hfo ▸ ho)

/-- On an update, any post-save row is the saved instance or an untouched
row with a different pk. -/
theorem mem_savePayload_reservations_false {db : DB} {inst : Reservation}
    {r : Reservation} (hr : r ∈ (savePayload db inst false).reservations) :
    r = (savedInstance db inst false).1 ∨ (r ∈ db.reservations ∧ r.pk ≠ inst.pk) := by
  rw [savePayload_reservations, if_neg (by simp)] at hr
  obtain ⟨o, ho, hfo⟩ := List.mem_map.mp hr
  by_cases hpk : o.pk = (savedInstance db inst false).1.pk
  · rw [if_pos hpk] at hfo
    exact Or.inl hfo.symm
  · rw [if_neg hpk] at hfo
    refine Or.inr ⟨hfo ▸ ho, ?_⟩
    rw [← hfo]
    rw [savedInstance_fst_pk] at hpk
    exact hpk

/-! ### Claim theorems -/

/-- C8: a merged record with check_out less than or equal to check_in is
rejected with a validation error on the check_out field, and the rejection
is issued before the overlap query: the result is the check_out error for
every database, even one holding overlapping reservations. -/
theorem date_ordering_precondition (db : DB) (inst : Reservation) (b : Bool)
    (h : inst.check_out ≤ inst.check_in) :
    Reservation.clean db.reservations inst = Except.error FieldErr.check_out_field ∧
      saveReservation db inst b = Except.error FieldErr.check_out_field ∧
      applySave db inst b = db := by
  have hc := @clean_eq_error_out db.reservations inst h
  have hs : saveReservation db inst b = Except.error FieldErr.check_out_field :=
    saveReservation_error_iff.mpr hc
  exact ⟨hc, hs, applySave_of_error hs⟩

def c8db : DB := ⟨[⟨1, 1, 1, 0, 200, none, 0, RStatus.PENDING, ""⟩], [], [], 0⟩

def c8inst : Reservation := ⟨2, 1, 1, 100, 50, none, 0, RStatus.PENDING, ""⟩

/-- C8 witness: a reversed-date candidate over a database that would also
conflict on dates is rejected on the check_out field. -/
theorem date_ordering_precondition_witness :
    c8inst.check_out ≤ c8inst.check_in ∧
      (Reservation.clean c8db.reservations c8inst = Except.error FieldErr.check_out_field ∧
        saveReservation c8db c8inst true = Except.error FieldErr.check_out_field ∧
        applySave c8db c8inst true = c8db) :=
  ⟨by decide, date_ordering_precondition c8db c8inst true (by decide)⟩

/-- C7: against a single existing valid non-cancelled reservation on the
same unit, a candidate with check_in equal to the existing check_out, or
with check_out equal to the existing check_in, passes the overlap
validator; a candidate sharing the existing check_out (and with valid date
order, hence overlapping on check_in) is rejected on the check_in field. -/
theorem back_to_back_boundary (e c : Reservation)
    (he : e.status ≠ RStatus.CANCELLED) (hev : e.check_in < e.check_out)
    (hpk : c.pk ≠ e.pk) (hunit : c.accommodation_unit = e.accommodation_unit)
    (hcv : c.check_in < c.check_out) :
    (c.check_in = e.check_out → Reservation.clean [e] c = Except.ok ()) ∧
      (c.check_out = e.check_in → Reservation.clean [e] c = Except.ok ()) ∧
      (c.check_out = e.check_out →
        Reservation.clean [e] c = Except.error FieldErr.check_in_field) := by
  refine ⟨?_, ?_, ?_⟩
  · intro hb
    apply clean_eq_ok_of hcv
    intro o ho hc
    rw [List.mem_singleton] at ho
    subst ho
    have h5 := hc.2.2.2.2
    rw [hb] at h5
    exact lt_irrefl _ h5
  · intro hb
    apply clean_eq_ok_of hcv
    intro o ho hc
    rw [List.mem_singleton] at ho
    subst ho
    have h4 := hc.2.2.2.1
    rw [hb] at h4
    exact lt_irrefl _ h4
  · intro hb
    apply clean_eq_error_in hcv (List.mem_singleton.mpr rfl)
    refine ⟨hunit.symm, he, fun hpq => hpk hpq.symm, ?_, ?_⟩
    · rw [hb]
      exact hev
    · rw [← hb]
      exact hcv

def c7e : Reservation := ⟨1, 1, 1, 0, 100, none, 0, RStatus.CONFIRMED, ""⟩

def c7c : Reservation := ⟨2, 1, 1, 100, 200, none, 0, RStatus.PENDING, ""⟩

/-- C7 witness: a back-to-back candidate starting exactly at the existing
checkout, on concrete data. -/
theorem back_to_back_boundary_witness :
    c7e.status ≠ RStatus.CANCELLED ∧ c7e.check_in < c7e.check_out ∧
      c7c.pk ≠ c7e.pk ∧ c7c.accommodation_unit = c7e.accommodation_unit ∧
      c7c.check_in < c7c.check_out ∧
      ((c7c.check_in = c7e.check_out → Reservation.clean [c7e] c7c = Except.ok ()) ∧
        (c7c.check_out = c7e.check_in → Reservation.clean [c7e] c7c = Except.ok ()) ∧
        (c7c.check_out = c7e.check_out →
          Reservation.clean [c7e] c7c = Except.error FieldErr.check_in_field)) :=
  ⟨by decide, by decide, by decide, by decide, by decide,
    back_to_back_boundary c7e c7c (by decide) (by decide) (by decide) (by decide) (by decide)⟩

/-- C10: every successful save of a reservation whose incoming status is
CHECKED_OUT marks the referenced accommodation unit DIRTY, for creates and
updates alike, whatever the unit's previous cleanliness status. -/
theorem checked_out_dirties_unit (db : DB) (inst : Reservation) (b : Bool) (db' : DB)
    (hst : inst.status = RStatus.CHECKED_OUT)
    (hok : saveReservation db inst b = Except.ok db') :
    ∀ u ∈ db'.units, u.id = inst.accommodation_unit → u.status = UStatus.DIRTY := by
  obtain ⟨hclean, rfl⟩ := saveReservation_ok_iff.mp hok
  intro u hu hid
  rw [savePayload_units, if_pos hst] at hu
  obtain ⟨v, hv, hvu⟩ := List.mem_map.mp hu
  by_cases hvid : v.id = inst.accommodation_unit
  · rw [if_pos hvid] at hvu
    rw [← hvu]
  · rw [if_neg hvid] at hvu
    rw [← hvu] at hid
    exact absurd hid hvid

def c10db : DB :=
  ⟨[⟨1, 1, 1, 0, 100, none, 0, RStatus.CHECKED_OUT, ""⟩], [], [⟨1, UStatus.CLEAN⟩], 0⟩

def c10inst : Reservation := ⟨1, 1, 1, 0, 100, none, 0, RStatus.CHECKED_OUT, "edited"⟩

def c10db' : DB :=
  ⟨[⟨1, 1, 1, 0, 100, none, 0, RStatus.CHECKED_OUT, "edited"⟩], [], [⟨1, UStatus.DIRTY⟩], 0⟩

/-- C10 witness: editing only the notes of an already checked-out
reservation re-dirties its unit, which had been marked CLEAN. -/
theorem checked_out_dirties_unit_witness :
    c10inst.status = RStatus.CHECKED_OUT ∧
      saveReservation c10db c10inst false = Except.ok c10db' ∧
      ∀ u ∈ c10db'.units, u.id = c10inst.accommodation_unit → u.status = UStatus.DIRTY :=
  ⟨rfl, rfl, checked_out_dirties_unit c10db c10inst false c10db' rfl rfl⟩

/-- C9: the payment-driven auto-confirm side effect never fires on a
create: a reservation created with status PENDING and positive amount_paid
is appended to the table exactly as submitted, so every newly inserted row
still has status PENDING. -/
theorem no_auto_confirm_on_create (db : DB) (inst : Reservation) (db' : DB)
    (hst : inst.status = RStatus.PENDING) (_hpaid : 0 < inst.amount_paid)
    (hok : saveReservation db inst true = Except.ok db') :
    db'.reservations = db.reservations ++ [inst] ∧
      ∀ r ∈ db'.reservations, r ∉ db.reservations → r.status = RStatus.PENDING := by
  obtain ⟨hclean, rfl⟩ := saveReservation_ok_iff.mp hok
  have h1 : (savePayload db inst true).reservations = db.reservations ++ [inst] := by
    rw [savePayload_reservations, if_pos rfl, savedInstance_true]
  refine ⟨h1, ?_⟩
  intro r hr hnot
  rw [h1, List.mem_append] at hr
  rcases hr with h | h
  · exact absurd h hnot
  · rw [List.mem_singleton] at h
    rw [h]
    exact hst

def c9db : DB := ⟨[], [], [], 0⟩

def c9inst : Reservation := ⟨1, 1, 1, 0, 100, none, 50, RStatus.PENDING, ""⟩

def c9db' : DB := ⟨[⟨1, 1, 1, 0, 100, none, 50, RStatus.PENDING, ""⟩], [], [], 0⟩

/-- C9 witness: creating a PENDING reservation that already carries a
positive amount_paid persists it as PENDING. -/
theorem no_auto_confirm_on_create_witness :
    c9inst.status = RStatus.PENDING ∧ 0 < c9inst.amount_paid ∧
      saveReservation c9db c9inst true = Except.ok c9db' ∧
      (c9db'.reservations = c9db.reservations ++ [c9inst] ∧
        ∀ r ∈ c9db'.reservations, r ∉ c9db.reservations → r.status = RStatus.PENDING) :=
  ⟨rfl, by decide, rfl, no_auto_confirm_on_create c9db c9inst c9db' rfl (by decide) rfl⟩

/-- C3: on an update of a persisted reservation, when the stored
amount_paid was 0, the incoming amount_paid is positive and the incoming
status is PENDING, the persisted status after that single update is
CONFIRMED; when the stored amount_paid was already positive, or the
incoming status is not PENDING, the persisted status is exactly the
submitted one (no automatic change). -/
theorem auto_confirm_on_first_payment (db : DB) (inst old : Reservation) (db' : DB)
    (hfind : db.reservations.find? (fun o => decide (o.pk = inst.pk)) = some old)
    (hok : saveReservation db inst false = Except.ok db') :
    ((old.amount_paid = 0 ∧ 0 < inst.amount_paid ∧ inst.status = RStatus.PENDING) →
        ∀ r ∈ db'.reservations, r.pk = inst.pk → r.status = RStatus.CONFIRMED) ∧
      ((0 < old.amount_paid ∨ inst.status ≠ RStatus.PENDING) →
        ∀ r ∈ db'.reservations, r.pk = inst.pk → r.status = inst.status) := by
  obtain ⟨hclean, rfl⟩ := saveReservation_ok_iff.mp hok
  have hsi := savedInstance_false_some db inst old hfind
  constructor
  · intro hc r hr hpk
    rcases mem_savePayload_reservations_false hr with h | ⟨_, hne⟩
    · rw [h, hsi, handler_fst, if_pos hc]
    · exact absurd hpk hne
  · intro hc r hr hpk
    have hcond : ¬(old.amount_paid = 0 ∧ 0 < inst.amount_paid ∧ inst.status = RStatus.PENDING) := by
      rcases hc with h | h
      · intro hq
        rw [hq.1] at h
        exact lt_irrefl _ h
      · intro hq
        exact h hq.2.2
    rcases mem_savePayload_reservations_false hr with h | ⟨_, hne⟩
    · rw [h, hsi, handler_fst, if_neg hcond]
    · exact absurd hpk hne

def c3db : DB := ⟨[⟨1, 1, 1, 0, 100, none, 0, RStatus.PENDING, ""⟩], [], [], 0⟩

def c3old : Reservation := ⟨1, 1, 1, 0, 100, none, 0, RStatus.PENDING, ""⟩

def c3inst : Reservation := ⟨1, 1, 1, 0, 100, none, 50, RStatus.PENDING, ""⟩

def c3db' : DB := ⟨[⟨1, 1, 1, 0, 100, none, 50, RStatus.CONFIRMED, ""⟩], [], [], 0⟩

/-- C3 witness: a first payment on a PENDING reservation auto-confirms it
within the same update. -/
theorem auto_confirm_on_first_payment_witness :
    c3db.reservations.find? (fun o => decide (o.pk = c3inst.pk)) = some c3old ∧
      saveReservation c3db c3inst false = Except.ok c3db' ∧
      (((c3old.amount_paid = 0 ∧ 0 < c3inst.amount_paid ∧ c3inst.status = RStatus.PENDING) →
          ∀ r ∈ c3db'.reservations, r.pk = c3inst.pk → r.status = RStatus.CONFIRMED) ∧
        ((0 < c3old.amount_paid ∨ c3inst.status ≠ RStatus.PENDING) →
          ∀ r ∈ c3db'.reservations, r.pk = c3inst.pk → r.status = c3inst.status)) :=
  ⟨rfl, rfl, auto_confirm_on_first_payment c3db c3inst c3old c3db' rfl rfl⟩

/-- The core invariant: no two distinct non-cancelled reservations on the
same unit have strictly overlapping half-open intervals. -/
def noOverlapInvariant (rs : List Reservation) : Prop :=
  ∀ r1 ∈ rs, ∀ r2 ∈ rs, r1.pk ≠ r2.pk → r1.status ≠ RStatus.CANCELLED →
    r2.status ≠ RStatus.CANCELLED → r1.accommodation_unit = r2.accommodation_unit →
    ¬(r1.check_in < r2.check_out ∧ r1.check_out > r2.check_in)

instance (rs : List Reservation) : Decidable (noOverlapInvariant rs) := by
  unfold noOverlapInvariant
  infer_instance

theorem conflicts_savedInstance (db : DB) (inst : Reservation) (b : Bool)
    (o : Reservation) : conflictsWith (savedInstance db inst b).1 o ↔ conflictsWith inst o := by
  unfold conflictsWith
  rw [savedInstance_fst_unit, savedInstance_fst_pk, savedInstance_fst_check_in,
    savedInstance_fst_check_out]

/-- A conflict-free candidate never overlaps a non-cancelled, same-unit
stored row with a different pk, in either orientation of the pair. -/
theorem no_conflict_no_overlap {inst o : Reservation}
    (hno : ¬ conflictsWith inst o) (hoc : o.status ≠ RStatus.CANCELLED)
    (hpk : o.pk ≠ inst.pk) (hunit : o.accommodation_unit = inst.accommodation_unit) :
    ¬(inst.check_in < o.check_out ∧ inst.check_out > o.check_in) ∧
      ¬(o.check_in < inst.check_out ∧ o.check_out > inst.check_in) := by
  have h : ¬(o.check_in < inst.check_out ∧ o.check_out > inst.check_in) := by
    intro hov
    exact hno ⟨hunit, hoc, hpk, hov.1, hov.2⟩
  refine ⟨?_, h⟩
  intro hov
  exact h ⟨hov.2, hov.1⟩

/-- One successful save preserves the no-overlap invariant. -/
theorem noOverlap_step {db : DB} {inst : Reservation} {b : Bool} {db' : DB}
    (hinv : noOverlapInvariant db.reservations)
    (hok : saveReservation db inst b = Except.ok db') :
    noOverlapInvariant db'.reservations := by
  obtain ⟨hclean, rfl⟩ := saveReservation_ok_iff.mp hok
  obtain ⟨_, hno⟩ := of_clean_eq_ok hclean
  intro r1 h1 r2 h2 hpk hs1 hs2 hunit hov
  rcases mem_savePayload_reservations h1 with e1 | m1 <;>
    rcases mem_savePayload_reservations h2 with e2 | m2
  · rw [e1, e2] at hpk
    exact hpk rfl
  · rw [e1] at hpk hs1 hunit hov
    have hno2' : ¬ conflictsWith inst r2 := by
      intro hc
      exact hno r2 m2 hc
    rw [savedInstance_fst_unit] at hunit
    rw [savedInstance_fst_pk] at hpk
    rw [savedInstance_fst_check_in, savedInstance_fst_check_out] at hov
    exact (no_conflict_no_overlap hno2' hs2 (fun hq => hpk hq.symm) hunit.symm).1 hov
  · rw [e2] at hpk hs2 hunit hov
    have hno1 : ¬ conflictsWith inst r1 := by
      intro hc
      exact hno r1 m1 hc
    rw [savedInstance_fst_unit] at hunit
    rw [savedInstance_fst_pk] at hpk
    rw [savedInstance_fst_check_in, savedInstance_fst_check_out] at hov
    exact (no_conflict_no_overlap hno1 hs1 hpk hunit).2 hov
  · exact hinv r1 m1 r2 m2 hpk hs1 hs2 hunit hov

theorem noOverlap_runSaves {db : DB} (ops : List (Reservation × Bool))
    (hinv : noOverlapInvariant db.reservations) :
    noOverlapInvariant (runSaves db ops).reservations := by
  induction ops generalizing db with
  | nil => exact hinv
  | cons op ops ih =>
    have hstep : noOverlapInvariant (applySave db op.1 op.2).reservations := by
      unfold applySave
      cases hs : saveReservation db op.1 op.2 with
      | error e => exact hinv
      | ok db' => exact noOverlap_step hinv hs
    exact ih hstep

/-- C1: starting from any state satisfying the no-overlap invariant, every
state reachable through create/update saves still satisfies it; and a
merged record that overlaps some non-cancelled reservation on its unit
(other than the row being updated) is rejected with a validation error,
leaving the stored state unchanged. -/
theorem no_overlap_invariant_holds (db : DB) (ops : List (Reservation × Bool))
    (inst : Reservation) (b : Bool)
    (hinv : noOverlapInvariant db.reservations) :
    noOverlapInvariant (runSaves db ops).reservations ∧
      ((∃ o ∈ db.reservations, o.status ≠ RStatus.CANCELLED ∧ o.pk ≠ inst.pk ∧
          o.accommodation_unit = inst.accommodation_unit ∧
          o.check_in < inst.check_out ∧ o.check_out > inst.check_in) →
        (∃ e, saveReservation db inst b = Except.error e) ∧ applySave db inst b = db) := by
  refine ⟨noOverlap_runSaves ops hinv, ?_⟩
  rintro ⟨o, ho, hoc, hpk, hunit, hov1, hov2⟩
  by_cases h1 : inst.check_out ≤ inst.check_in
  · have hc := @clean_eq_error_out db.reservations inst h1
    have hs : saveReservation db inst b = Except.error FieldErr.check_out_field :=
      saveReservation_error_iff.mpr hc
    exact ⟨⟨_, hs⟩, applySave_of_error hs⟩
  · have hc := clean_eq_error_in (not_le.mp h1) ho ⟨hunit, hoc, hpk, hov1, hov2⟩
    have hs : saveReservation db inst b = Except.error FieldErr.check_in_field :=
      saveReservation_error_iff.mpr hc
    exact ⟨⟨_, hs⟩, applySave_of_error hs⟩

def c1db : DB := ⟨[⟨1, 1, 1, 0, 100, none, 0, RStatus.CONFIRMED, ""⟩], [], [], 0⟩

def c1inst : Reservation := ⟨2, 1, 1, 50, 150, none, 0, RStatus.PENDING, ""⟩

def c1ops : List (Reservation × Bool) :=
  [(c1inst, true), (⟨3, 1, 1, 100, 200, none, 0, RStatus.PENDING, ""⟩, true)]

/-- C1 witness: from a one-reservation state, an overlapping create plus a
back-to-back create leave the invariant intact, and the overlapping
candidate itself is rejected without changing the state. -/
theorem no_overlap_invariant_holds_witness :
    noOverlapInvariant c1db.reservations ∧
      (noOverlapInvariant (runSaves c1db c1ops).reservations ∧
        ((∃ o ∈ c1db.reservations, o.status ≠ RStatus.CANCELLED ∧ o.pk ≠ c1inst.pk ∧
            o.accommodation_unit = c1inst.accommodation_unit ∧
            o.check_in < c1inst.check_out ∧ o.check_out > c1inst.check_in) →
          (∃ e, saveReservation c1db c1inst true = Except.error e) ∧
            applySave c1db c1inst true = c1db)) :=
  ⟨by decide, no_overlap_invariant_holds c1db c1ops c1inst true (by decide)⟩

/-- The unit ids collected by the availability endpoint are exactly the
units referenced by some non-cancelled reservation overlapping the
half-open query window. -/
theorem mem_overlappingUnitIds {db : DB} {a b : Int} {uid : Nat} :
    uid ∈ ((db.reservations.filter (fun r =>
          decide (r.check_in < b) && decide (r.check_out > a))).filter
        (fun r => !decide (r.status = RStatus.CANCELLED))).map
        (fun r => r.accommodation_unit) ↔
      ∃ r ∈ db.reservations, r.status ≠ RStatus.CANCELLED ∧
        r.accommodation_unit = uid ∧ r.check_in < b ∧ r.check_out > a := by
  simp only [List.mem_map, List.mem_filter, Bool.and_eq_true, decide_eq_true_eq,
    Bool.not_eq_true', decide_eq_false_iff_not]
  constructor
  · rintro ⟨r, ⟨⟨hr, hov1, hov2⟩, hst⟩, huid⟩
    exact ⟨r, hr, hst, huid, hov1, hov2⟩
  · rintro ⟨r, hr, hst, huid, hov1, hov2⟩
    exact ⟨r, ⟨⟨hr, hov1, hov2⟩, hst⟩, huid⟩

/-- C6: for parsed timestamps the availability endpoint returns exactly
the units not referenced by any non-cancelled reservation satisfying
`check_in < check_out_param` and `check_out > check_in_param`; a missing
or unparsable parameter yields a validation error and no unit list. -/
theorem check_availability_correct (db : DB) (a b : Int) :
    (∃ l, check_availability db (ParamV.parsed a) (ParamV.parsed b) = Except.ok l ∧
        ∀ u, u ∈ l ↔ u ∈ db.units ∧
          ¬ ∃ r ∈ db.reservations, r.status ≠ RStatus.CANCELLED ∧
              r.accommodation_unit = u.id ∧ r.check_in < b ∧ r.check_out > a) ∧
      (∀ ci co, (ci = ParamV.missing ∨ ci = ParamV.unparsable ∨
          co = ParamV.missing ∨ co = ParamV.unparsable) →
        ∃ e, check_availability db ci co = Except.error e) := by
  constructor
  · refine ⟨_, rfl, ?_⟩
    intro u
    rw [List.mem_filter]
    constructor
    · rintro ⟨hu, hp⟩
      refine ⟨hu, ?_⟩
      rw [Bool.not_eq_true', ← Bool.not_eq_true] at hp
      intro hex
      exact hp (List.elem_iff.mpr (mem_overlappingUnitIds.mpr hex))
    · rintro ⟨hu, hnex⟩
      refine ⟨hu, ?_⟩
      rw [Bool.not_eq_true', ← Bool.not_eq_true]
      intro hp
      exact hnex (mem_overlappingUnitIds.mp (List.elem_iff.mp hp))
  · intro ci co h
    cases ci <;> cases co
    case parsed.parsed t t' => rcases h with h | h | h | h <;> exact absurd h (by simp)
    all_goals exact ⟨_, rfl⟩

/-- C5: an update transitioning a reservation from a non-CANCELLED status
into CANCELLED deletes exactly the linked transactions whose paid_date is
null, in the same operation; every linked transaction with a non-null
paid_date survives unchanged. -/
theorem cancellation_purge (db : DB) (inst old : Reservation) (db' : DB)
    (hfind : db.reservations.find? (fun o => decide (o.pk = inst.pk)) = some old)
    (hold : old.status ≠ RStatus.CANCELLED) (hnew : inst.status = RStatus.CANCELLED)
    (hok : saveReservation db inst false = Except.ok db') :
    db'.transactions = db.transactions.filter
        (fun t => !decide (t.reservation = some inst.pk ∧ t.paid_date = none)) ∧
      ∀ t ∈ db.transactions, t.reservation = some inst.pk → t.paid_date ≠ none →
        t ∈ db'.transactions := by
  obtain ⟨hclean, rfl⟩ := saveReservation_ok_iff.mp hok
  have hsi := savedInstance_false_some db inst old hfind
  have hfst : (savedInstance db inst false).1 = inst := by
    rw [hsi, handler_fst, if_neg]
    intro hq
    rw [hnew] at hq
    exact absurd hq.2.2 (by simp)
  have hsnd : (savedInstance db inst false).2 = db.transactions.filter
      (fun t => !decide (t.reservation = some inst.pk ∧ t.paid_date = none)) := by
    rw [hsi, handler_snd, if_pos ⟨hold, hnew⟩]
  have hcft : create_financial_transaction (savedInstance db inst false).1 db.today
      (savedInstance db inst false).2 = (savedInstance db inst false).2 := by
    unfold create_financial_transaction
    rw [if_neg]
    intro hq
    apply hq.2
    rw [hfst, hnew]
  have htx : (savePayload db inst false).transactions = db.transactions.filter
      (fun t => !decide (t.reservation = some inst.pk ∧ t.paid_date = none)) := by
    rw [savePayload_transactions, hcft, hsnd]
  refine ⟨htx, ?_⟩
  intro t ht hres hpaid
  rw [htx, List.mem_filter]
  refine ⟨ht, ?_⟩
  simp only [Bool.not_eq_true', decide_eq_false_iff_not]
  intro hq
  exact hpaid hq.2

def c5db : DB :=
  ⟨[⟨1, 1, 1, 0, 100, some 1000, 0, RStatus.CONFIRMED, ""⟩],
    [⟨some 1, 1000, TType.INCOME, TCategory.LODGING, PMethod.PIX, 0, none⟩,
      ⟨some 1, 500, TType.EXPENSE, TCategory.OTHER, PMethod.PIX, 0, some 5⟩],
    [], 10⟩

def c5old : Reservation := ⟨1, 1, 1, 0, 100, some 1000, 0, RStatus.CONFIRMED, ""⟩

def c5inst : Reservation := ⟨1, 1, 1, 0, 100, some 1000, 0, RStatus.CANCELLED, ""⟩

def c5db' : DB :=
  ⟨[⟨1, 1, 1, 0, 100, some 1000, 0, RStatus.CANCELLED, ""⟩],
    [⟨some 1, 500, TType.EXPENSE, TCategory.OTHER, PMethod.PIX, 0, some 5⟩],
    [], 10⟩

/-- C5 witness: cancelling a confirmed reservation deletes its unpaid
transaction and keeps its paid one untouched. -/
theorem cancellation_purge_witness :
    c5db.reservations.find? (fun o => decide (o.pk = c5inst.pk)) = some c5old ∧
      c5old.status ≠ RStatus.CANCELLED ∧ c5inst.status = RStatus.CANCELLED ∧
      saveReservation c5db c5inst false = Except.ok c5db' ∧
      (c5db'.transactions = c5db.transactions.filter
          (fun t => !decide (t.reservation = some c5inst.pk ∧ t.paid_date = none)) ∧
        ∀ t ∈ c5db.transactions, t.reservation = some c5inst.pk → t.paid_date ≠ none →
          t ∈ c5db'.transactions) :=
  ⟨rfl, by decide, rfl, rfl,
    cancellation_purge c5db c5inst c5old c5db' rfl (by decide) rfl rfl⟩

def c4zdb : DB := ⟨[], [], [], 0⟩

def c4zinst : Reservation := ⟨1, 1, 1, 0, 100, some 0, 0, RStatus.PENDING, ""⟩

def c4zdb' : DB := ⟨[⟨1, 1, 1, 0, 100, some 0, 0, RStatus.PENDING, ""⟩], [], [], 0⟩

/-- C4 counterexample: a reservation with the NON-NULL total_price 0, a
non-CANCELLED status and no existing INCOME transaction is saved
successfully, yet the reconciliation step creates no transaction at all —
the signal tests Python truthiness (`if instance.total_price:`), under
which the non-null Decimal 0 is falsy, not mere non-nullness as claimed. -/
theorem transaction_creation_counterexample :
    c4zinst.total_price = some 0 ∧ c4zinst.status ≠ RStatus.CANCELLED ∧
      c4zdb.transactions = [] ∧
      saveReservation c4zdb c4zinst true = Except.ok c4zdb' ∧
      c4zdb'.transactions = [] :=
  ⟨rfl, by decide, rfl, rfl, rfl⟩

/-- C4 (amended): for every save of a reservation with a non-null AND
nonzero total_price, status not CANCELLED, and no INCOME transaction yet
linked to it, the reconciliation appends exactly one INCOME transaction
with amount = total_price, category lodging, due_date the date part of
check_in, and paid_date the current date iff is_fully_paid holds. -/
theorem transaction_creation_postcondition (db : DB) (inst : Reservation) (b : Bool)
    (db' : DB) (p : Int)
    (hp : inst.total_price = some p) (hpz : p ≠ 0)
    (hst : inst.status ≠ RStatus.CANCELLED)
    (hno : ∀ t ∈ db.transactions,
      ¬(t.reservation = some inst.pk ∧ t.transaction_type = TType.INCOME))
    (hok : saveReservation db inst b = Except.ok db') :
    db'.transactions = db.transactions ++
      [{ reservation := some inst.pk, amount := p, transaction_type := TType.INCOME,
         category := TCategory.LODGING, payment_method := PMethod.PIX,
         due_date := dateOf inst.check_in,
         paid_date := if inst.is_fully_paid then some db.today else none }] := by
  obtain ⟨hclean, rfl⟩ := saveReservation_ok_iff.mp hok
  have hsnd := savedInstance_snd_of_not_cancelled db inst b hst
  have hcanc : (savedInstance db inst b).1.status ≠ RStatus.CANCELLED := by
    intro hq
    exact hst ((savedInstance_fst_cancelled_iff db inst b).mp hq)
  have hfind : db.transactions.find? (txPred (savedInstance db inst b).1.pk) = none := by
    rw [savedInstance_fst_pk]
    rw [List.find?_eq_none]
    intro t ht
    unfold txPred
    simp only [decide_eq_true_eq]
    exact hno t ht
  have hnew : newIncomeTx (savedInstance db inst b).1 db.today =
      { reservation := some inst.pk, amount := p, transaction_type := TType.INCOME,
        category := TCategory.LODGING, payment_method := PMethod.PIX,
        due_date := dateOf inst.check_in,
        paid_date := if inst.is_fully_paid then some db.today else none } := by
    unfold newIncomeTx
    rw [savedInstance_fst_pk, savedInstance_fst_total_price, savedInstance_fst_check_in,
      savedInstance_fst_is_fully_paid, hp]
    rfl
  rw [savePayload_transactions, hsnd]
  unfold create_financial_transaction
  rw [if_pos, hfind, hnew]
  constructor
  · rw [savedInstance_fst_total_price, hp]
    unfold truthyPrice
    exact decide_eq_true hpz
  · exact hcanc

def c4db : DB := ⟨[], [], [], 7⟩

def c4inst : Reservation := ⟨1, 1, 1, 2940, 4320, some 1000, 1000, RStatus.PENDING, ""⟩

def c4db' : DB :=
  ⟨[⟨1, 1, 1, 2940, 4320, some 1000, 1000, RStatus.PENDING, ""⟩],
    [⟨some 1, 1000, TType.INCOME, TCategory.LODGING, PMethod.PIX, 2, some 7⟩],
    [], 7⟩

/-- C4 witness: creating a fully-paid priced reservation yields exactly
one INCOME transaction, due on the check_in date and pre-marked paid
today. -/
theorem transaction_creation_postcondition_witness :
    c4inst.total_price = some 1000 ∧ (1000 : Int) ≠ 0 ∧
      c4inst.status ≠ RStatus.CANCELLED ∧
      (∀ t ∈ c4db.transactions,
        ¬(t.reservation = some c4inst.pk ∧ t.transaction_type = TType.INCOME)) ∧
      saveReservation c4db c4inst true = Except.ok c4db' ∧
      c4db'.transactions = c4db.transactions ++
        [{ reservation := some c4inst.pk, amount := 1000,
           transaction_type := TType.INCOME, category := TCategory.LODGING,
           payment_method := PMethod.PIX, due_date := dateOf c4inst.check_in,
           paid_date := if c4inst.is_fully_paid then some c4db.today else none }] :=
  ⟨rfl, by decide, by decide, by decide, rfl,
    transaction_creation_postcondition c4db c4inst true c4db' 1000 rfl (by decide)
      (by decide) (by decide) rfl⟩

/-- Number of INCOME transactions linked to a given reservation pk. -/
def incomeTxCount (txs : List Transaction) (pk : Nat) : Nat :=
  txs.countP (txPred pk)

theorem txPred_newIncomeTx (i : Reservation) (d : Int) :
    txPred i.pk (newIncomeTx i d) = true := by
  unfold txPred newIncomeTx
  exact decide_eq_true ⟨rfl, rfl⟩

theorem txPred_newIncomeTx_ne {pk : Nat} (i : Reservation) (d : Int) (h : pk ≠ i.pk) :
    txPred pk (newIncomeTx i d) = false := by
  unfold txPred newIncomeTx
  apply decide_eq_false
  intro hq
  apply h
  have := hq.1
  simpa using this.symm

theorem countP_replaceFirst (p : Transaction → Bool) (f : Transaction → Transaction)
    (q : Transaction → Bool) (hf : ∀ t, q (f t) = q t) :
    ∀ txs : List Transaction, (replaceFirst p f txs).countP q = txs.countP q := by
  intro txs
  induction txs with
  | nil => rfl
  | cons t ts ih =>
    unfold replaceFirst
    by_cases hp : p t = true
    · rw [if_pos hp, List.countP_cons, List.countP_cons, hf t]
    · rw [if_neg hp, List.countP_cons, List.countP_cons, ih]

/-- The two paid_date rewrites of the reconciliation never change whether
a transaction matches the INCOME-for-this-reservation query. -/
theorem txPred_paid_update (pk : Nat) (d : Option Int) (t : Transaction) :
    txPred pk { t with paid_date := d } = txPred pk t := rfl

theorem cft_of_not_cond (i : Reservation) (d : Int) (txs : List Transaction)
    (h : ¬(truthyPrice i.total_price = true ∧ i.status ≠ RStatus.CANCELLED)) :
    create_financial_transaction i d txs = txs := by
  unfold create_financial_transaction
  rw [if_neg h]

theorem cft_count_ge (i : Reservation) (d : Int) (txs : List Transaction)
    (h : truthyPrice i.total_price = true ∧ i.status ≠ RStatus.CANCELLED) :
    1 ≤ incomeTxCount (create_financial_transaction i d txs) i.pk := by
  unfold create_financial_transaction incomeTxCount
  rw [if_pos h]
  cases hf : txs.find? (txPred i.pk) with
  | none =>
    dsimp only
    rw [List.countP_append]
    have h1 : List.countP (txPred i.pk) [newIncomeTx i d] = 1 := by
      rw [List.countP_cons]
      rw [txPred_newIncomeTx]
      rfl
    rw [h1]
    exact Nat.le_add_left 1 _
  | some t =>
    dsimp only
    have hpos : 0 < txs.countP (txPred i.pk) :=
      List.countP_pos_iff.mpr ⟨t, List.mem_of_find?_eq_some hf, List.find?_some hf⟩
    by_cases h1 : i.is_fully_paid = true ∧ t.paid_date = none
    · rw [if_pos h1, countP_replaceFirst _ _ _ (fun u => txPred_paid_update i.pk (some d) u)]
      exact hpos
    · rw [if_neg h1]
      by_cases h2 : ¬ i.is_fully_paid = true ∧ t.paid_date ≠ none
      · rw [if_pos h2, countP_replaceFirst _ _ _ (fun u => txPred_paid_update i.pk none u)]
        exact hpos
      · rw [if_neg h2]
        exact hpos

theorem cft_count_pos_eq (i : Reservation) (d : Int) (txs : List Transaction)
    (h : 1 ≤ incomeTxCount txs i.pk) :
    incomeTxCount (create_financial_transaction i d txs) i.pk = incomeTxCount txs i.pk := by
  unfold create_financial_transaction incomeTxCount
  by_cases hc : truthyPrice i.total_price = true ∧ i.status ≠ RStatus.CANCELLED
  · rw [if_pos hc]
    cases hf : txs.find? (txPred i.pk) with
    | none =>
      exfalso
      have h0 : txs.countP (txPred i.pk) = 0 :=
        List.countP_eq_zero.mpr (List.find?_eq_none.mp hf)
      unfold incomeTxCount at h
      rw [h0] at h
      exact absurd h (by decide)
    | some t =>
      dsimp only
      by_cases h1 : i.is_fully_paid = true ∧ t.paid_date = none
      · rw [if_pos h1, countP_replaceFirst _ _ _ (fun u => txPred_paid_update i.pk (some d) u)]
      · rw [if_neg h1]
        by_cases h2 : ¬ i.is_fully_paid = true ∧ t.paid_date ≠ none
        · rw [if_pos h2, countP_replaceFirst _ _ _ (fun u => txPred_paid_update i.pk none u)]
        · rw [if_neg h2]
  · rw [if_neg hc]

theorem cft_count_le_one (i : Reservation) (d : Int) (txs : List Transaction)
    (h : incomeTxCount txs i.pk ≤ 1) :
    incomeTxCount (create_financial_transaction i d txs) i.pk ≤ 1 := by
  by_cases h0 : 1 ≤ incomeTxCount txs i.pk
  · rw [cft_count_pos_eq i d txs h0]
    exact h
  · have hz : incomeTxCount txs i.pk = 0 := Nat.eq_zero_of_not_pos h0
    unfold create_financial_transaction incomeTxCount
    by_cases hc : truthyPrice i.total_price = true ∧ i.status ≠ RStatus.CANCELLED
    · rw [if_pos hc]
      have hf : txs.find? (txPred i.pk) = none := by
        rw [List.find?_eq_none]
        exact List.countP_eq_zero.mp hz
      rw [hf]
      dsimp only
      rw [List.countP_append]
      unfold incomeTxCount at hz
      rw [hz, List.countP_cons, txPred_newIncomeTx, List.countP_nil]
      decide
    · rw [if_neg hc]
      exact h

theorem cft_count_other (i : Reservation) (d : Int) (txs : List Transaction)
    (pk : Nat) (h : pk ≠ i.pk) :
    incomeTxCount (create_financial_transaction i d txs) pk = incomeTxCount txs pk := by
  unfold create_financial_transaction incomeTxCount
  by_cases hc : truthyPrice i.total_price = true ∧ i.status ≠ RStatus.CANCELLED
  · rw [if_pos hc]
    cases hf : txs.find? (txPred i.pk) with
    | none =>
      dsimp only
      rw [List.countP_append, List.countP_cons, txPred_newIncomeTx_ne i d h]
      rfl
    | some t =>
      dsimp only
      by_cases h1 : i.is_fully_paid = true ∧ t.paid_date = none
      · rw [if_pos h1, countP_replaceFirst _ _ _ (fun u => txPred_paid_update pk (some d) u)]
      · rw [if_neg h1]
        by_cases h2 : ¬ i.is_fully_paid = true ∧ t.paid_date ≠ none
        · rw [if_pos h2, countP_replaceFirst _ _ _ (fun u => txPred_paid_update pk none u)]
        · rw [if_neg h2]
  · rw [if_neg hc]

/-- The pre_save handler either forwards the stored transaction list or
filters it (the cancellation purge). -/
theorem savedInstance_snd_cases (db : DB) (inst : Reservation) (b : Bool) :
    (savedInstance db inst b).2 = db.transactions ∨
      ∃ q, (savedInstance db inst b).2 = db.transactions.filter q := by
  cases b with
  | true =>
    rw [savedInstance_true]
    exact Or.inl rfl
  | false =>
    cases hf : db.reservations.find? (fun o => decide (o.pk = inst.pk)) with
    | none =>
      rw [savedInstance_false_none db inst hf]
      exact Or.inl rfl
    | some old =>
      rw [savedInstance_false_some db inst old hf, handler_snd]
      by_cases hc : old.status ≠ RStatus.CANCELLED ∧ inst.status = RStatus.CANCELLED
      · rw [if_pos hc]
        exact Or.inr ⟨_, rfl⟩
      · rw [if_neg hc]
        exact Or.inl rfl

theorem savedInstance_snd_count_le (db : DB) (inst : Reservation) (b : Bool) (pk : Nat) :
    incomeTxCount (savedInstance db inst b).2 pk ≤ incomeTxCount db.transactions pk := by
  rcases savedInstance_snd_cases db inst b with h | ⟨q, h⟩
  · rw [h]
  · rw [h]
    exact List.Sublist.countP_le _ (List.filter_sublist _)

/-- One successful save preserves the at-most-one-INCOME invariant. -/
theorem incomeCount_step {db : DB} {inst : Reservation} {b : Bool} {db' : DB}
    (hinv : ∀ pk, incomeTxCount db.transactions pk ≤ 1)
    (hok : saveReservation db inst b = Except.ok db') :
    ∀ pk, incomeTxCount db'.transactions pk ≤ 1 := by
  obtain ⟨_, rfl⟩ := saveReservation_ok_iff.mp hok
  intro pk
  rw [savePayload_transactions]
  have hle : incomeTxCount (savedInstance db inst b).2 pk ≤ 1 :=
    le_trans (savedInstance_snd_count_le db inst b pk) (hinv pk)
  by_cases hpk : pk = (savedInstance db inst b).1.pk
  · subst hpk
    exact cft_count_le_one _ db.today _ hle
  · rw [cft_count_other _ db.today _ pk hpk]
    exact hle

theorem incomeCount_runSaves {db : DB} (ops : List (Reservation × Bool))
    (hinv : ∀ pk, incomeTxCount db.transactions pk ≤ 1) :
    ∀ pk, incomeTxCount (runSaves db ops).transactions pk ≤ 1 := by
  induction ops generalizing db with
  | nil => exact hinv
  | cons op ops ih =>
    have hstep : ∀ pk, incomeTxCount (applySave db op.1 op.2).transactions pk ≤ 1 := by
      unfold applySave
      cases hs : saveReservation db op.1 op.2 with
      | error e => exact hinv
      | ok db' => exact incomeCount_step hinv hs
    exact ih hstep

theorem list_find?_map_comm {α : Type} (f : α → α) (p : α → Bool)
    (hf : ∀ a, p (f a) = p a) (l : List α) :
    (l.map f).find? p = (l.find? p).map f := by
  rw [List.find?_map]
  have hpf : p ∘ f = p := funext hf
  rw [hpf]

/-- After a save, looking up the saved pk finds the saved instance — or
nothing, when the save was an update of a pk absent from the table (for a
create the pk is required to be fresh, as Django assigns fresh pks on
INSERT). -/
theorem find?_after_save (db : DB) (inst : Reservation) (b : Bool)
    (hfresh : b = true → ∀ o ∈ db.reservations, o.pk ≠ inst.pk) :
    (savePayload db inst b).reservations.find? (fun o => decide (o.pk = inst.pk)) =
        some (savedInstance db inst b).1 ∨
      (savePayload db inst b).reservations.find? (fun o => decide (o.pk = inst.pk)) = none := by
  cases b with
  | true =>
    left
    rw [savePayload_reservations, if_pos rfl, List.find?_append]
    have h1 : db.reservations.find? (fun o => decide (o.pk = inst.pk)) = none := by
      rw [List.find?_eq_none]
      intro o ho
      simp only [decide_eq_true_eq]
      exact hfresh rfl o ho
    rw [h1]
    have h2 : List.find? (fun o => decide (o.pk = inst.pk))
        [(savedInstance db inst true).1] = some (savedInstance db inst true).1 := by
      apply List.find?_cons_of_pos
      rw [savedInstance_fst_pk]
      exact decide_eq_true rfl
    rw [h2]
    rfl
  | false =>
    rw [savePayload_reservations, if_neg (by simp)]
    have hfun : ∀ o : Reservation,
        (fun o => decide (o.pk = inst.pk))
            (if o.pk = (savedInstance db inst false).1.pk
              then (savedInstance db inst false).1 else o) =
          (fun o => decide (o.pk = inst.pk)) o := by
      intro o
      dsimp only
      by_cases hpk : o.pk = (savedInstance db inst false).1.pk
      · rw [if_pos hpk]
        rw [savedInstance_fst_pk] at hpk
        rw [savedInstance_fst_pk, hpk]
      · rw [if_neg hpk]
    rw [list_find?_map_comm _ _ hfun]
    cases hf : db.reservations.find? (fun o => decide (o.pk = inst.pk)) with
    | none =>
      right
      rfl
    | some old =>
      left
      have hpk : old.pk = inst.pk := by
        have := List.find?_some hf
        exact of_decide_eq_true this
      dsimp only [Option.map]
      rw [if_pos]
      rw [savedInstance_fst_pk]
      exact hpk

/-- A second save of the same merged record never purges: the transaction
list entering its reconciliation step is exactly the stored one. -/
theorem savedInstance_snd_second (db : DB) (inst : Reservation) (b : Bool)
    (hfresh : b = true → ∀ o ∈ db.reservations, o.pk ≠ inst.pk) :
    (savedInstance (savePayload db inst b) inst false).2 =
      (savePayload db inst b).transactions := by
  rcases find?_after_save db inst b hfresh with hf | hf
  · rw [savedInstance_false_some _ inst _ hf, handler_snd, if_neg]
    intro hq
    exact hq.1 ((savedInstance_fst_cancelled_iff db inst b).mpr hq.2)
  · rw [savedInstance_false_none _ inst hf]

/-- Saving the same merged record a second time leaves the number of
INCOME transactions linked to it unchanged. -/
theorem incomeCount_second_save (db : DB) (inst : Reservation) (b : Bool)
    (db1 db2 : DB)
    (hfresh : b = true → ∀ o ∈ db.reservations, o.pk ≠ inst.pk)
    (h1 : saveReservation db inst b = Except.ok db1)
    (h2 : saveReservation db1 inst false = Except.ok db2) :
    incomeTxCount db2.transactions inst.pk = incomeTxCount db1.transactions inst.pk := by
  obtain ⟨hc1, rfl⟩ := saveReservation_ok_iff.mp h1
  obtain ⟨hc2, rfl⟩ := saveReservation_ok_iff.mp h2
  rw [savePayload_transactions (savePayload db inst b) inst false,
    savedInstance_snd_second db inst b hfresh]
  by_cases hP : truthyPrice inst.total_price = true ∧ inst.status ≠ RStatus.CANCELLED
  · have hge : 1 ≤ incomeTxCount (savePayload db inst b).transactions inst.pk := by
      rw [savePayload_transactions]
      have hP1 : truthyPrice (savedInstance db inst b).1.total_price = true ∧
          (savedInstance db inst b).1.status ≠ RStatus.CANCELLED := by
        rw [savedInstance_fst_total_price]
        exact ⟨hP.1, fun hq => hP.2 ((savedInstance_fst_cancelled_iff db inst b).mp hq)⟩
      have hge0 := cft_count_ge (savedInstance db inst b).1 db.today
        (savedInstance db inst b).2 hP1
      rw [savedInstance_fst_pk] at hge0
      exact hge0
    have heq := cft_count_pos_eq (savedInstance (savePayload db inst b) inst false).1
      (savePayload db inst b).today (savePayload db inst b).transactions
      (by rw [savedInstance_fst_pk]; exact hge)
    rw [savedInstance_fst_pk] at heq
    exact heq
  · have hP2 : ¬(truthyPrice (savedInstance (savePayload db inst b) inst false).1.total_price
        = true ∧
        (savedInstance (savePayload db inst b) inst false).1.status ≠ RStatus.CANCELLED) := by
      rw [savedInstance_fst_total_price]
      intro hq
      exact hP ⟨hq.1, fun hcc => hq.2
        ((savedInstance_fst_cancelled_iff (savePayload db inst b) inst false).mpr hcc)⟩
    rw [cft_of_not_cond _ _ _ hP2]

/-- C2: starting from any state with at most one INCOME transaction per
reservation, every state reachable through create/update saves keeps that
bound; and saving the same merged record twice (the create inserting under
a fresh pk, as Django does) never yields a second INCOME transaction: the
count after the second save equals the count after the first. -/
theorem at_most_one_income_transaction (db : DB) (ops : List (Reservation × Bool))
    (inst : Reservation) (b : Bool) (db1 db2 : DB)
    (hinv : ∀ pk, incomeTxCount db.transactions pk ≤ 1)
    (hfresh : b = true → ∀ o ∈ db.reservations, o.pk ≠ inst.pk) :
    (∀ pk, incomeTxCount (runSaves db ops).transactions pk ≤ 1) ∧
      (saveReservation db inst b = Except.ok db1 →
        saveReservation db1 inst false = Except.ok db2 →
        incomeTxCount db2.transactions inst.pk = incomeTxCount db1.transactions inst.pk) :=
  ⟨incomeCount_runSaves ops hinv,
    fun h1 h2 => incomeCount_second_save db inst b db1 db2 hfresh h1 h2⟩

def c2db : DB := ⟨[], [], [], 5⟩

def c2inst : Reservation := ⟨1, 1, 1, 0, 1440, some 1000, 0, RStatus.PENDING, ""⟩

def c2db1 : DB :=
  ⟨[⟨1, 1, 1, 0, 1440, some 1000, 0, RStatus.PENDING, ""⟩],
    [⟨some 1, 1000, TType.INCOME, TCategory.LODGING, PMethod.PIX, 0, none⟩],
    [], 5⟩

/-- C2 witness: creating a priced reservation and then re-saving the same
record keeps exactly one INCOME transaction. -/
theorem at_most_one_income_transaction_witness :
    (∀ pk, incomeTxCount c2db.transactions pk ≤ 1) ∧
      (true = true → ∀ o ∈ c2db.reservations, o.pk ≠ c2inst.pk) ∧
      ((∀ pk, incomeTxCount (runSaves c2db [(c2inst, true)]).transactions pk ≤ 1) ∧
        (saveReservation c2db c2inst true = Except.ok c2db1 →
          saveReservation c2db1 c2inst false = Except.ok c2db1 →
          incomeTxCount c2db1.transactions c2inst.pk =
            incomeTxCount c2db1.transactions c2inst.pk)) :=
  ⟨fun pk => Nat.zero_le 1, by decide,
    at_most_one_income_transaction c2db [(c2inst, true)] c2inst true c2db1 c2db1
      (fun pk => Nat.zero_le 1) (by decide)⟩

end AccomMgmt
